import Mathlib

/-!
Verification development for the qtviewer reactive parameter-state engine.

The pane classes (`StatefulPane`, `ImagePane`, `GraphicsPane`, `Plot2DPane`)
are embedded from `src/qtviewer/panels.py`.  The collaborators
`qtviewer.state.State`, `qtviewer.widgets.StatefulWidget` and the animation
clock are imported by that file but their sources are not part of the
repository snapshot; they are modelled from the specification where needed
(each such definition carries a doc comment starting `Modelled from the
spec:`).

Parameter values and render payloads are abstracted as integers; parameter
maps are association lists with dictionary (latest-write) lookup semantics.
Python keyword-argument calling is modelled by `callPy`: a callback declares
the keyword names it explicitly accepts and whether it has a catch-all
`**kwargs` parameter; a call with an undeclared key and no catch-all raises
an argument-mismatch error (Python `TypeError`).  All effects (render-sink
invocations, subscriber notifications) are made explicit as traces.
-/

abbrev PName := String
abbrev Value := Int
abbrev Data := Int

/-- A parameter map: association list from parameter names to values. -/
abbrev PMap := List (PName × Value)

namespace PMap

/-- Dictionary lookup: the current value of a name, if present. -/
def get? (m : PMap) (k : PName) : Option Value :=
  (m.find? (fun p => p.1 == k)).map (·.2)

/-- Dictionary update: replace the entry for `k` if present, else add it.
Mirrors `dict.__setitem__`: at most one entry per key survives. -/
def set (m : PMap) (k : PName) (v : Value) : PMap :=
  (k, v) :: m.filter (fun p => p.1 != k)

/-- The set of names present in the map. -/
def keys (m : PMap) : List PName := m.map (·.1)

end PMap

/-- Errors raised by the host (Python) runtime in this core. -/
inductive PyError where
  /-- `TypeError`: a keyword argument the callee does not accept. -/
  | argumentMismatch
  /-- `NotImplementedError`: abstract method invoked on the base class. -/
  | notImplementedError
  /-- `TypeError`: attempt to call `None`. -/
  | noneNotCallable
deriving DecidableEq, Repr

/-- A Python callable used as a compute callback: the keyword names it
explicitly declares, whether it has a catch-all `**kwargs` parameter, and the
pure function it computes on the delivered map. -/
structure PyCallback where
  accepted : List PName
  acceptsExtra : Bool
  fn : PMap → Data

/-- Python keyword-argument application of a callback to a parameter map:
fails with `argumentMismatch` when the map carries a key the callback does
not declare and the callback has no catch-all parameter; otherwise the
callback computes on the full map.  (Binding of the declared parameters
themselves is inside `fn`.) -/
def callPy (c : PyCallback) (args : PMap) : Except PyError Data :=
  if ¬ c.acceptsExtra ∧ args.any (fun p => ¬ c.accepted.contains p.1) then
    .error .argumentMismatch
  else
    .ok (c.fn args)

/-- Modelled from the spec: `qtviewer.state.State` (not under `src/`).
A keyed store of named values plus an ordered list of subscribers; here a
subscriber is identified by a natural number and an invocation is recorded
as an event `(subscriber, delivered map)`. -/
structure State where
  store : PMap
  subs : List Nat

namespace State

/-- Modelled from the spec: fresh state with one initial subscriber, as
`StatefulPane.__init__` constructs `State(callback)` with the pane's bound
`update` as the callback. -/
def init (sub : Nat) : State := ⟨[], [sub]⟩

/-- Modelled from the spec: `subscribe(fn)` appends to the subscriber list;
invocation order follows registration order. -/
def subscribe (s : State) (i : Nat) : State := { s with subs := s.subs ++ [i] }

/-- Modelled from the spec: `flush()` re-invokes all subscribers with the
current map without changing any value. -/
def flush (s : State) : List (Nat × PMap) := s.subs.map (fun i => (i, s.store))

/-- Modelled from the spec: `set(name, value)` updates the named entry
(creating it if absent), then immediately flushes: every subscriber is
invoked once, synchronously, with the complete current map. -/
def set (s : State) (k : PName) (v : Value) : State × List (Nat × PMap) :=
  let s' : State := { s with store := s.store.set k v }
  (s', s'.flush)

end State

/-- The base pane of `panels.py`: owns one `State` (here: the id of the state
instance created with the pane, plus its store) and nothing else.  The render
behaviour lives only in subclasses. -/
structure StatefulPane where
  stateId : Nat
  store : PMap

namespace StatefulPane

/-- `StatefulPane.__init__`: creates the pane owning a freshly constructed
`State`; `fresh` is the identity of that new state instance. -/
def init (fresh : Nat) : StatefulPane := ⟨fresh, []⟩

/-- `StatefulPane.update`: the parent method; always raises
`NotImplementedError` and performs no callback or render-sink call (the
result type records the sink calls an override would make). -/
def update (_p : StatefulPane) (_args : PMap) :
    Except PyError (StatefulPane × List Data) :=
  .error .notImplementedError

end StatefulPane

/-- `ImagePane` of `panels.py`: image view pane.  `rendered` is the trace of
`set_image` calls (the render sink); `layout` is the trace of widget names
placed beneath the pane by `addWidget`. -/
structure ImagePane where
  stateId : Nat
  store : PMap
  callback : PyCallback
  rendered : List Data
  layout : List PName

namespace ImagePane

/-- `ImagePane.set_image`: render the given image immediately. -/
def set_image (p : ImagePane) (image : Data) : ImagePane :=
  { p with rendered := p.rendered ++ [image] }

/-- `ImagePane.__init__`: stores the user callback, or
`lambda *a, **b: image` (accepts anything, returns the constructor image)
when none is supplied; then renders the initial image once. -/
def init (fresh : Nat) (image : Data) (calculate : Option PyCallback) :
    ImagePane :=
  let base : ImagePane :=
    { stateId := fresh
      store := []
      callback := calculate.getD ⟨[], true, fun _ => image⟩
      rendered := []
      layout := [] }
  base.set_image image

/-- `ImagePane.update`: forwards the delivered map to the stored callback and
passes the result to `set_image`. -/
def update (p : ImagePane) (args : PMap) : Except PyError ImagePane :=
  match callPy p.callback args with
  | .error e => .error e
  | .ok img => .ok (p.set_image img)

end ImagePane

/-- `GraphicsPane` of `panels.py`: like `ImagePane` but the stored callback is
`Optional` — `__init__` assigns `self.callback = calculate` with no default. -/
structure GraphicsPane where
  stateId : Nat
  store : PMap
  callback : Option PyCallback
  rendered : List Data
  layout : List PName

namespace GraphicsPane

/-- `GraphicsPane.set_image`: render the given image immediately. -/
def set_image (p : GraphicsPane) (image : Data) : GraphicsPane :=
  { p with rendered := p.rendered ++ [image] }

/-- `GraphicsPane.__init__`: stores `calculate` as-is (no identity default),
then renders the initial image once. -/
def init (fresh : Nat) (image : Data) (calculate : Option PyCallback) :
    GraphicsPane :=
  let base : GraphicsPane :=
    { stateId := fresh
      store := []
      callback := calculate
      rendered := []
      layout := [] }
  base.set_image image

/-- `GraphicsPane.update`: `self.callback(**args)` — calling `None` raises a
`TypeError` when no callback was supplied. -/
def update (p : GraphicsPane) (args : PMap) : Except PyError GraphicsPane :=
  match p.callback with
  | none => .error .noneNotCallable
  | some c =>
    match callPy c args with
    | .error e => .error e
    | .ok img => .ok (p.set_image img)

end GraphicsPane

/-- `Plot2DPane` of `panels.py`: plot pane; `rendered` is the trace of
`set_data` calls (the render sink `self.curve.setData`). -/
structure Plot2DPane where
  stateId : Nat
  store : PMap
  callback : PyCallback
  rendered : List Data
  layout : List PName

namespace Plot2DPane

/-- `Plot2DPane.set_data`: render the given data immediately. -/
def set_data (p : Plot2DPane) (data : Data) : Plot2DPane :=
  { p with rendered := p.rendered ++ [data] }

/-- `Plot2DPane.__init__`: stores the user callback, or
`lambda *a, **b: data` when none is supplied; then renders the initial data
once. -/
def init (fresh : Nat) (data : Data) (calculate : Option PyCallback) :
    Plot2DPane :=
  let base : Plot2DPane :=
    { stateId := fresh
      store := []
      callback := calculate.getD ⟨[], true, fun _ => data⟩
      rendered := []
      layout := [] }
  base.set_data data

/-- `Plot2DPane.update`: forwards the delivered map to the stored callback and
passes the result to `set_data`. -/
def update (p : Plot2DPane) (args : PMap) : Except PyError Plot2DPane :=
  match callPy p.callback args with
  | .error e => .error e
  | .ok d => .ok (p.set_data d)

end Plot2DPane

/-- Modelled from the spec: `qtviewer.widgets.StatefulWidget` (not under
`src/`).  A named control with a declared domain `(min, max, step)` and a
current value; `attached` records the identities of the states it was
attached to as a producer. -/
structure StatefulWidget where
  name : PName
  dmin : Value
  dmax : Value
  dstep : Value
  value : Value
  attached : List Nat

/-- Fresh widget: value = initial, no attachments. -/
def StatefulWidget.mk0 (name : PName) (dmin dmax dstep initial : Value) :
    StatefulWidget :=
  ⟨name, dmin, dmax, dstep, initial, []⟩

namespace ImagePane

/-- The pane's own state receiving a `set`: the named entry is updated, then
the flush synchronously drives the pane's `update` (the state's sole
subscriber, registered at construction) with the complete current map. -/
def state_set (p : ImagePane) (k : PName) (v : Value) : Except PyError ImagePane :=
  let st := p.store.set k v
  ImagePane.update { p with store := st } st

/-- `StatefulPane.force_flush`: calls `flush()` on the owned state, which
re-invokes the pane's `update` with the current map, changing no value. -/
def force_flush (p : ImagePane) : Except PyError ImagePane :=
  p.update p.store

/-- Modelled from the spec: `StatefulWidget.attach(state)` registers the
widget as a producer on the pane's own state and immediately calls
`state.set(name, currentValue)`. -/
def widget_attach (w : StatefulWidget) (p : ImagePane) :
    StatefulWidget × Except PyError ImagePane :=
  ({ w with attached := w.attached ++ [p.stateId] }, p.state_set w.name w.value)

/-- `StatefulPane.enchain`: calls `widget.attach` on the pane's own state, and
nothing else. -/
def enchain (p : ImagePane) (w : StatefulWidget) :
    StatefulWidget × Except PyError ImagePane :=
  widget_attach w p

/-- `StatefulPane.attach_widget`: `enchain` plus placing the widget's visual
control beneath the pane (`addWidget`/`nextRow`, recorded in `layout`). -/
def attach_widget (p : ImagePane) (w : StatefulWidget) :
    StatefulWidget × Except PyError ImagePane :=
  let r := p.enchain w
  (r.1, r.2.map (fun q => { q with layout := q.layout ++ [w.name] }))

end ImagePane

namespace GraphicsPane

/-- The pane's own state receiving a `set`: update the entry, then flush to
the pane's `update` with the complete current map. -/
def state_set (p : GraphicsPane) (k : PName) (v : Value) :
    Except PyError GraphicsPane :=
  let st := p.store.set k v
  GraphicsPane.update { p with store := st } st

/-- `StatefulPane.force_flush`: flush the owned state, re-driving `update`
with the current map, changing no value. -/
def force_flush (p : GraphicsPane) : Except PyError GraphicsPane :=
  p.update p.store

/-- Modelled from the spec: `StatefulWidget.attach(state)` on this pane's
state. -/
def widget_attach (w : StatefulWidget) (p : GraphicsPane) :
    StatefulWidget × Except PyError GraphicsPane :=
  ({ w with attached := w.attached ++ [p.stateId] }, p.state_set w.name w.value)

/-- `StatefulPane.enchain`: `widget.attach` on the pane's own state only. -/
def enchain (p : GraphicsPane) (w : StatefulWidget) :
    StatefulWidget × Except PyError GraphicsPane :=
  widget_attach w p

/-- `StatefulPane.attach_widget`: `enchain` plus layout placement. -/
def attach_widget (p : GraphicsPane) (w : StatefulWidget) :
    StatefulWidget × Except PyError GraphicsPane :=
  let r := p.enchain w
  (r.1, r.2.map (fun q => { q with layout := q.layout ++ [w.name] }))

end GraphicsPane

namespace Plot2DPane

/-- The pane's own state receiving a `set`: update the entry, then flush to
the pane's `update` with the complete current map. -/
def state_set (p : Plot2DPane) (k : PName) (v : Value) :
    Except PyError Plot2DPane :=
  let st := p.store.set k v
  Plot2DPane.update { p with store := st } st

/-- `StatefulPane.force_flush`: flush the owned state, re-driving `update`
with the current map, changing no value. -/
def force_flush (p : Plot2DPane) : Except PyError Plot2DPane :=
  p.update p.store

/-- Modelled from the spec: `StatefulWidget.attach(state)` on this pane's
state. -/
def widget_attach (w : StatefulWidget) (p : Plot2DPane) :
    StatefulWidget × Except PyError Plot2DPane :=
  ({ w with attached := w.attached ++ [p.stateId] }, p.state_set w.name w.value)

/-- `StatefulPane.enchain`: `widget.attach` on the pane's own state only. -/
def enchain (p : Plot2DPane) (w : StatefulWidget) :
    StatefulWidget × Except PyError Plot2DPane :=
  widget_attach w p

/-- `StatefulPane.attach_widget`: `enchain` plus layout placement. -/
def attach_widget (p : Plot2DPane) (w : StatefulWidget) :
    StatefulWidget × Except PyError Plot2DPane :=
  let r := p.enchain w
  (r.1, r.2.map (fun q => { q with layout := q.layout ++ [w.name] }))

end Plot2DPane

/-- Modelled from the spec: `AnimationClock` (not under `src/`).  Holds a
target frame rate, a monotonic frame counter starting at 0, and a
running/stopped flag. -/
structure AnimationClock where
  fps : Nat
  counter : Nat
  running : Bool

namespace AnimationClock

/-- Modelled from the spec: a fresh clock — counter 0, stopped. -/
def init (fps : Nat) : AnimationClock := ⟨fps, 0, false⟩

/-- Modelled from the spec: `start()` begins delivering ticks. -/
def start (c : AnimationClock) : AnimationClock := { c with running := true }

/-- Modelled from the spec: `stop()` — no tick is delivered after it
returns; a pending scheduled tick is cancelled. -/
def stop (c : AnimationClock) : AnimationClock := { c with running := false }

/-- Modelled from the spec: each tick of a running clock increments the
monotonic counter by 1, then calls `set("animationTick", counter)` on the
attached pane's state; a stopped clock delivers nothing.  The third
component is the list of `animationTick` values forwarded by this tick. -/
def tick (c : AnimationClock) (s : State) : AnimationClock × State × List Value :=
  if c.running then
    let c' : AnimationClock := { c with counter := c.counter + 1 }
    let r := s.set "animationTick" (Int.ofNat c'.counter)
    (c', r.1, [Int.ofNat c'.counter])
  else (c, s, [])

/-- Simulate `n` consecutive ticks, collecting the forwarded values. -/
def runTicks : AnimationClock → State → Nat → AnimationClock × State × List Value
  | c, s, 0 => (c, s, [])
  | c, s, n + 1 =>
    let r := c.tick s
    let r' := runTicks r.1 r.2.1 n
    (r'.1, r'.2.1, r.2.2 ++ r'.2.2)

end AnimationClock

/-! ### Lemmas about parameter maps -/

theorem PMap.get?_set_self (m : PMap) (k : PName) (v : Value) :
    (m.set k v).get? k = some v := by
  simp [PMap.set, PMap.get?]

theorem PMap.get?_set_other (m : PMap) (k k' : PName) (v : Value) (h : k' ≠ k) :
    (m.set k v).get? k' = m.get? k' := by
  simp only [PMap.set, PMap.get?]
  rw [List.find?_cons_of_neg _ (by simpa using Ne.symm h)]
  congr 1
  induction m with
  | nil => rfl
  | cons p t ih =>
    rcases eq_or_ne p.1 k with hp | hp
    · rw [List.filter_cons_of_neg (by simp [hp]),
        List.find?_cons_of_neg _ (by simp [hp, Ne.symm h])]
      exact ih
    · rw [List.filter_cons_of_pos (by simp [hp])]
      rcases eq_or_ne p.1 k' with hq | hq
      · rw [List.find?_cons_of_pos _ (by simp [hq]),
          List.find?_cons_of_pos _ (by simp [hq])]
      · rw [List.find?_cons_of_neg _ (by simp [hq]),
          List.find?_cons_of_neg _ (by simp [hq])]
        exact ih

/-! ### Concrete callbacks for witnesses -/

/-- A tolerant doubling callback, `f(rho, **_) = 2 * rho`: declares `rho` and
a catch-all parameter. -/
def rhoDouble : PyCallback :=
  ⟨["rho"], true, fun m => 2 * (m.get? "rho").getD 0⟩

/-- A strict doubling callback, `f(rho) = 2 * rho`: declares only `rho`, no
catch-all parameter. -/
def rhoOnly : PyCallback :=
  ⟨["rho"], false, fun m => 2 * (m.get? "rho").getD 0⟩

/-! ### Claims -/

/-- C9: calling `update` on a base `StatefulPane` that has not been
subclassed with an overriding `update` always raises `NotImplementedError`,
for every argument map; in particular it never produces a callback or
render-sink invocation. -/
theorem C9_base_update_not_implemented (p : StatefulPane) (m : PMap) :
    p.update m = .error .notImplementedError := rfl

/-- C10: constructing an `ImagePane`, `GraphicsPane`, or `Plot2DPane`
immediately renders the initial constructor data: after `__init__` the render
sink's trace is exactly the one initial payload, before any widget
attachment, state change, or `update` call. -/
theorem C10_init_renders_initial_data (fresh : Nat) (image data : Data)
    (ci cg cp : Option PyCallback) :
    (ImagePane.init fresh image ci).rendered = [image]
    ∧ (GraphicsPane.init fresh image cg).rendered = [image]
    ∧ (Plot2DPane.init fresh data cp).rendered = [data] := by
  refine ⟨rfl, rfl, rfl⟩

/-- C2: for any `set(name, value)` call on a state with subscribers, every
subscriber is invoked exactly once (the event trace lists the subscribers in
registration order), each invocation receives the complete current map,
and that map is the union of all producers' latest values: the written name
now maps to the new value (last-writer-wins) and every other name keeps its
previous latest value. -/
theorem C2_set_flush_semantics (s : State) (k : PName) (v : Value) :
    ((s.set k v).2.map Prod.fst = s.subs)
    ∧ (∀ e ∈ (s.set k v).2, e.2 = (s.set k v).1.store)
    ∧ ((s.set k v).1.store.get? k = some v)
    ∧ (∀ k', k' ≠ k → (s.set k v).1.store.get? k' = s.store.get? k')
    ∧ ((s.set k v).1.subs = s.subs) := by
  refine ⟨?_, ?_, ?_, ?_, rfl⟩
  · simp [State.set, State.flush, Function.comp_def]
  · intro e he
    simp only [State.set, State.flush, List.mem_map] at he
    obtain ⟨i, _, rfl⟩ := he
    rfl
  · exact PMap.get?_set_self _ _ _
  · intro k' hk'
    exact PMap.get?_set_other _ _ _ _ hk'

/-- Unfolding lemma: `GraphicsPane.update` when a callback is stored. -/
theorem GraphicsPane.update_some (p : GraphicsPane) (c : PyCallback) (m : PMap)
    (h : p.callback = some c) :
    p.update m = match callPy c m with
      | .error e => .error e
      | .ok img => .ok (p.set_image img) := by
  unfold GraphicsPane.update
  rw [h]

/-- C1: for every `StatefulPane` subclass (`ImagePane`, `GraphicsPane`,
`Plot2DPane`) and every parameter map delivered to it, `update(map)` forwards
the complete map to the stored user callback and passes exactly the
callback's result, unmodified, to the pane's render sink (`set_image` /
`set_data`).  For `GraphicsPane` the stored callback is `Optional`, so the
claim is read with a stored callback present. -/
theorem C1_update_forwards_callback_result
    (pi : ImagePane) (pg : GraphicsPane) (pp : Plot2DPane) (c : PyCallback)
    (m : PMap) (hg : pg.callback = some c) :
    (∀ d, callPy pi.callback m = .ok d → pi.update m = .ok (pi.set_image d))
    ∧ (∀ d, callPy c m = .ok d → pg.update m = .ok (pg.set_image d))
    ∧ (∀ d, callPy pp.callback m = .ok d → pp.update m = .ok (pp.set_data d)) := by
  refine ⟨fun d hd => ?_, fun d hd => ?_, fun d hd => ?_⟩
  · unfold ImagePane.update
    rw [hd]
  · rw [GraphicsPane.update_some pg c m hg, hd]
  · unfold Plot2DPane.update
    rw [hd]

/-- Witness for C1: concrete panes whose callback doubles `rho`; delivering
`{rho: 3}` renders exactly `6` on each pane kind. -/
theorem C1_witness :
    (ImagePane.init 0 5 (some rhoDouble)).update [("rho", 3)]
      = .ok ((ImagePane.init 0 5 (some rhoDouble)).set_image 6)
    ∧ (GraphicsPane.init 0 5 (some rhoDouble)).update [("rho", 3)]
      = .ok ((GraphicsPane.init 0 5 (some rhoDouble)).set_image 6)
    ∧ (Plot2DPane.init 0 5 (some rhoDouble)).update [("rho", 3)]
      = .ok ((Plot2DPane.init 0 5 (some rhoDouble)).set_data 6) := by
  have h := C1_update_forwards_callback_result
    (ImagePane.init 0 5 (some rhoDouble)) (GraphicsPane.init 0 5 (some rhoDouble))
    (Plot2DPane.init 0 5 (some rhoDouble)) rhoDouble [("rho", 3)] rfl
  exact ⟨h.1 6 rfl, h.2.1 6 rfl, h.2.2 6 rfl⟩

/-- C3 counterexample: a `GraphicsPane` constructed without a user-supplied
`calculate` callback stores `None` (no identity default), and `update` then
fails with a `TypeError` instead of rendering the constructor image — the
claim is false for the `GraphicsPane` kind. -/
theorem C3_counterexample :
    (GraphicsPane.init 0 7 none).callback = none
    ∧ (GraphicsPane.init 0 7 none).update [("sigma", 2)]
        = .error .noneNotCallable := by
  exact ⟨rfl, rfl⟩

/-- C3 amended: `ImagePane` and `Plot2DPane` constructed without a
user-supplied `calculate` callback store an identity-style default returning
the originally supplied data, so `update` with any parameter map renders the
original constructor data and never fails; `GraphicsPane` stores no default —
its callback is `None` and `update` raises a `TypeError` for every map. -/
theorem C3_default_callback (fresh : Nat) (image data : Data) (m : PMap) :
    (ImagePane.init fresh image none).update m
      = .ok ((ImagePane.init fresh image none).set_image image)
    ∧ (Plot2DPane.init fresh data none).update m
      = .ok ((Plot2DPane.init fresh data none).set_data data)
    ∧ (GraphicsPane.init fresh image none).update m
      = .error .noneNotCallable := by
  exact ⟨rfl, rfl, rfl⟩

/-- C4: for every pane whose stored callback lacks a catch-all parameter, a
delivered map carrying a key beyond the callback's declared names makes
`update` fail with the argument-mismatch error, which propagates uncaught as
the `update` result (no recovery path exists in `update`); when the callback
has a catch-all parameter, `update` succeeds and renders the callback's
result. -/
theorem C4_extra_key_behaviour
    (pi : ImagePane) (pg : GraphicsPane) (pp : Plot2DPane) (c : PyCallback)
    (m : PMap) (hg : pg.callback = some c) :
    ((pi.callback.acceptsExtra = false
        ∧ m.any (fun e => ¬ pi.callback.accepted.contains e.1) = true)
      → pi.update m = .error .argumentMismatch)
    ∧ ((c.acceptsExtra = false
        ∧ m.any (fun e => ¬ c.accepted.contains e.1) = true)
      → pg.update m = .error .argumentMismatch)
    ∧ ((pp.callback.acceptsExtra = false
        ∧ m.any (fun e => ¬ pp.callback.accepted.contains e.1) = true)
      → pp.update m = .error .argumentMismatch)
    ∧ (pi.callback.acceptsExtra = true
      → pi.update m = .ok (pi.set_image (pi.callback.fn m)))
    ∧ (c.acceptsExtra = true
      → pg.update m = .ok (pg.set_image (c.fn m)))
    ∧ (pp.callback.acceptsExtra = true
      → pp.update m = .ok (pp.set_data (pp.callback.fn m))) := by
  refine ⟨fun h => ?_, fun h => ?_, fun h => ?_, fun h => ?_, fun h => ?_, fun h => ?_⟩
  · unfold ImagePane.update callPy
    rw [if_pos ⟨by simp [h.1], h.2⟩]
  · rw [GraphicsPane.update_some pg c m hg]
    unfold callPy
    rw [if_pos ⟨by simp [h.1], h.2⟩]
  · unfold Plot2DPane.update callPy
    rw [if_pos ⟨by simp [h.1], h.2⟩]
  · unfold ImagePane.update callPy
    rw [if_neg (by simp [h])]
  · rw [GraphicsPane.update_some pg c m hg]
    unfold callPy
    rw [if_neg (by simp [h])]
  · unfold Plot2DPane.update callPy
    rw [if_neg (by simp [h])]

/-- Witness for C4: with the strict callback `f(rho)` (no catch-all), the map
`{rho: 1, sigma: 2}` makes `update` fail with the argument-mismatch error on
each pane kind; with the tolerant callback `f(rho, **_)` the same map
succeeds and renders `2`. -/
theorem C4_witness :
    (ImagePane.init 0 5 (some rhoOnly)).update [("rho", 1), ("sigma", 2)]
      = .error .argumentMismatch
    ∧ (GraphicsPane.init 0 5 (some rhoOnly)).update [("rho", 1), ("sigma", 2)]
      = .error .argumentMismatch
    ∧ (Plot2DPane.init 0 5 (some rhoOnly)).update [("rho", 1), ("sigma", 2)]
      = .error .argumentMismatch
    ∧ (ImagePane.init 0 5 (some rhoDouble)).update [("rho", 1), ("sigma", 2)]
      = .ok ((ImagePane.init 0 5 (some rhoDouble)).set_image 2) := by
  have hs := C4_extra_key_behaviour
    (ImagePane.init 0 5 (some rhoOnly)) (GraphicsPane.init 0 5 (some rhoOnly))
    (Plot2DPane.init 0 5 (some rhoOnly)) rhoOnly [("rho", 1), ("sigma", 2)] rfl
  have ht := C4_extra_key_behaviour
    (ImagePane.init 0 5 (some rhoDouble)) (GraphicsPane.init 0 5 (some rhoDouble))
    (Plot2DPane.init 0 5 (some rhoDouble)) rhoDouble [("rho", 1), ("sigma", 2)] rfl
  exact ⟨hs.1 ⟨rfl, by decide⟩, hs.2.1 ⟨rfl, by decide⟩,
    hs.2.2.1 ⟨rfl, by decide⟩, ht.2.2.2.1 rfl⟩

/-- Unfolding lemma: `ImagePane.update` when the callback accepts the map. -/
theorem ImagePane.update_eq_image (p : ImagePane) (m : PMap) (d : Data)
    (h : callPy p.callback m = .ok d) : p.update m = .ok (p.set_image d) := by
  unfold ImagePane.update
  rw [h]

/-- Unfolding lemma: `GraphicsPane.update` when no callback is stored. -/
theorem GraphicsPane.update_none (p : GraphicsPane) (m : PMap)
    (h : p.callback = none) : p.update m = .error .noneNotCallable := by
  unfold GraphicsPane.update
  rw [h]

/-- Unfolding lemma: `GraphicsPane.update` when the stored callback accepts
the map. -/
theorem GraphicsPane.update_eq_graphics (p : GraphicsPane) (c : PyCallback) (m : PMap)
    (d : Data) (hcb : p.callback = some c) (h : callPy c m = .ok d) :
    p.update m = .ok (p.set_image d) := by
  rw [GraphicsPane.update_some p c m hcb, h]

/-- Unfolding lemma: `GraphicsPane.update` when the stored callback rejects
the map. -/
theorem GraphicsPane.update_err (p : GraphicsPane) (c : PyCallback) (m : PMap)
    (e : PyError) (hcb : p.callback = some c) (h : callPy c m = .error e) :
    p.update m = .error e := by
  rw [GraphicsPane.update_some p c m hcb, h]

/-- Unfolding lemma: `Plot2DPane.update` when the callback accepts the map. -/
theorem Plot2DPane.update_eq_plot (p : Plot2DPane) (m : PMap) (d : Data)
    (h : callPy p.callback m = .ok d) : p.update m = .ok (p.set_data d) := by
  unfold Plot2DPane.update
  rw [h]

/-- Inversion: a successful `set` on an `ImagePane`'s own state means the
callback accepted the updated map and the pane rendered its result. -/
theorem ImagePane.state_set_ok_image (p : ImagePane) (k : PName) (v : Value)
    (p' : ImagePane) (h : p.state_set k v = .ok p') :
    ∃ d, callPy p.callback (p.store.set k v) = .ok d
      ∧ p' = ImagePane.set_image { p with store := p.store.set k v } d := by
  simp only [ImagePane.state_set, ImagePane.update] at h
  cases hc : callPy p.callback (p.store.set k v) with
  | error e => rw [hc] at h; simp at h
  | ok d =>
    rw [hc] at h
    exact ⟨d, rfl, by injection h with h; exact h.symm⟩

/-- Inversion: a successful `set` on a `GraphicsPane`'s own state means a
callback was stored, it accepted the updated map, and the pane rendered its
result. -/
theorem GraphicsPane.state_set_ok_graphics (p : GraphicsPane) (k : PName) (v : Value)
    (p' : GraphicsPane) (h : p.state_set k v = .ok p') :
    ∃ c d, p.callback = some c
      ∧ callPy c (p.store.set k v) = .ok d
      ∧ p' = GraphicsPane.set_image { p with store := p.store.set k v } d := by
  simp only [GraphicsPane.state_set] at h
  cases hcb : p.callback with
  | none =>
    rw [GraphicsPane.update_none { p with store := p.store.set k v }
      (p.store.set k v) (by exact hcb)] at h
    simp at h
  | some c =>
    cases hc : callPy c (p.store.set k v) with
    | error e =>
      rw [GraphicsPane.update_err { p with store := p.store.set k v } c
        (p.store.set k v) e (by exact hcb) hc] at h
      simp at h
    | ok d =>
      rw [GraphicsPane.update_eq_graphics { p with store := p.store.set k v } c
        (p.store.set k v) d (by exact hcb) hc] at h
      refine ⟨c, d, rfl, hc, ?_⟩
      rw [← hcb]
      injection h with h
      exact h.symm

/-- Inversion: a successful `set` on a `Plot2DPane`'s own state means the
callback accepted the updated map and the pane rendered its result. -/
theorem Plot2DPane.state_set_ok_plot (p : Plot2DPane) (k : PName) (v : Value)
    (p' : Plot2DPane) (h : p.state_set k v = .ok p') :
    ∃ d, callPy p.callback (p.store.set k v) = .ok d
      ∧ p' = Plot2DPane.set_data { p with store := p.store.set k v } d := by
  simp only [Plot2DPane.state_set, Plot2DPane.update] at h
  cases hc : callPy p.callback (p.store.set k v) with
  | error e => rw [hc] at h; simp at h
  | ok d =>
    rw [hc] at h
    exact ⟨d, rfl, by injection h with h; exact h.symm⟩

/-- C5: for every pane (callbacks in this embedding are pure functions),
after a natural update triggered by a `set` on the pane's own state,
`forceFlush()` re-drives `update` with the last known value map (the owned
state's current map), appends to the render sink exactly the same payload the
prior natural update produced, and changes no parameter value. -/
theorem C5_force_flush_idempotent
    (pi pi' : ImagePane) (pg pg' : GraphicsPane) (pp pp' : Plot2DPane)
    (k : PName) (v : Value)
    (hi : pi.state_set k v = .ok pi')
    (hg : pg.state_set k v = .ok pg')
    (hp : pp.state_set k v = .ok pp') :
    (pi'.force_flush = pi'.update pi'.store
      ∧ ∃ d, pi'.rendered = pi.rendered ++ [d]
          ∧ pi'.force_flush = .ok (pi'.set_image d)
          ∧ (pi'.set_image d).store = pi'.store)
    ∧ (pg'.force_flush = pg'.update pg'.store
      ∧ ∃ d, pg'.rendered = pg.rendered ++ [d]
          ∧ pg'.force_flush = .ok (pg'.set_image d)
          ∧ (pg'.set_image d).store = pg'.store)
    ∧ (pp'.force_flush = pp'.update pp'.store
      ∧ ∃ d, pp'.rendered = pp.rendered ++ [d]
          ∧ pp'.force_flush = .ok (pp'.set_data d)
          ∧ (pp'.set_data d).store = pp'.store) := by
  obtain ⟨d1, hc1, rfl⟩ := ImagePane.state_set_ok_image pi k v pi' hi
  obtain ⟨c2, d2, hcb2, hc2, rfl⟩ := GraphicsPane.state_set_ok_graphics pg k v pg' hg
  obtain ⟨d3, hc3, rfl⟩ := Plot2DPane.state_set_ok_plot pp k v pp' hp
  refine ⟨⟨rfl, d1, rfl, ?_, rfl⟩, ⟨rfl, d2, rfl, ?_, rfl⟩, ⟨rfl, d3, rfl, ?_, rfl⟩⟩
  · unfold ImagePane.force_flush
    exact ImagePane.update_eq_image _ _ d1 hc1
  · unfold GraphicsPane.force_flush
    exact GraphicsPane.update_eq_graphics _ c2 _ d2 hcb2 hc2
  · unfold Plot2DPane.force_flush
    exact Plot2DPane.update_eq_plot _ _ d3 hc3

/-- The `ImagePane` obtained after setting `rho := 3` on a fresh doubling
pane: used by the C5 witness. -/
def paneWI : ImagePane := ⟨0, [("rho", 3)], rhoDouble, [5, 6], []⟩

/-- The `GraphicsPane` obtained after setting `rho := 3` on a fresh doubling
pane: used by the C5 witness. -/
def paneWG : GraphicsPane := ⟨0, [("rho", 3)], some rhoDouble, [5, 6], []⟩

/-- The `Plot2DPane` obtained after setting `rho := 3` on a fresh doubling
pane: used by the C5 witness. -/
def paneWP : Plot2DPane := ⟨0, [("rho", 3)], rhoDouble, [5, 6], []⟩

/-- Witness for C5: each concrete pane, after the natural update caused by
setting `rho := 3` (which rendered `6`), has a `forceFlush` that re-renders
exactly `6` and leaves the parameter map unchanged. -/
theorem C5_witness :
    (paneWI.force_flush = paneWI.update paneWI.store
      ∧ ∃ d, paneWI.rendered = (ImagePane.init 0 5 (some rhoDouble)).rendered ++ [d]
          ∧ paneWI.force_flush = .ok (paneWI.set_image d)
          ∧ (paneWI.set_image d).store = paneWI.store)
    ∧ (paneWG.force_flush = paneWG.update paneWG.store
      ∧ ∃ d, paneWG.rendered = (GraphicsPane.init 0 5 (some rhoDouble)).rendered ++ [d]
          ∧ paneWG.force_flush = .ok (paneWG.set_image d)
          ∧ (paneWG.set_image d).store = paneWG.store)
    ∧ (paneWP.force_flush = paneWP.update paneWP.store
      ∧ ∃ d, paneWP.rendered = (Plot2DPane.init 0 5 (some rhoDouble)).rendered ++ [d]
          ∧ paneWP.force_flush = .ok (paneWP.set_data d)
          ∧ (paneWP.set_data d).store = paneWP.store) :=
  C5_force_flush_idempotent (ImagePane.init 0 5 (some rhoDouble)) paneWI
    (GraphicsPane.init 0 5 (some rhoDouble)) paneWG
    (Plot2DPane.init 0 5 (some rhoDouble)) paneWP "rho" 3 rfl rfl rfl

/-- A running clock's tick: the counter increments and the new counter value
is forwarded through `set("animationTick", counter)`. -/
theorem AnimationClock.tick_running (c : AnimationClock) (s : State)
    (hc : c.running = true) :
    c.tick s = ({ c with counter := c.counter + 1 },
      (s.set ("animationTick") (Int.ofNat (c.counter + 1))).1,
      [Int.ofNat (c.counter + 1)]) := by
  unfold AnimationClock.tick
  rw [if_pos hc]

/-- A stopped clock's tick delivers nothing and freezes the counter. -/
theorem AnimationClock.tick_stopped (c : AnimationClock) (s : State)
    (hc : c.running = false) :
    c.tick s = (c, s, []) := by
  unfold AnimationClock.tick
  rw [if_neg (by simp [hc])]

/-- After `n` ticks of a running clock the forwarded values are the `n`
successive counter values, the counter has advanced by `n`, and the clock is
still running. -/
theorem AnimationClock.runTicks_values (c : AnimationClock) (s : State) (n : Nat)
    (hc : c.running = true) :
    ((c.runTicks s n).2.2
        = (List.range n).map (fun i => (Int.ofNat (c.counter + 1 + i) : Value)))
    ∧ (c.runTicks s n).1.counter = c.counter + n
    ∧ (c.runTicks s n).1.running = true := by
  induction n generalizing c s with
  | zero => exact ⟨rfl, rfl, hc⟩
  | succ n ih =>
    unfold AnimationClock.runTicks
    rw [AnimationClock.tick_running c s hc]
    obtain ⟨h1, h2, h3⟩ := ih { c with counter := c.counter + 1 }
      ((s.set ("animationTick") (Int.ofNat (c.counter + 1))).1) (by exact hc)
    dsimp only
    dsimp only at h1 h2 h3
    refine ⟨?_, ?_, h3⟩
    · rw [h1, List.range_succ_eq_map]
      simp only [List.map_cons, List.map_map, List.cons_append, List.nil_append]
      refine congrArg₂ List.cons ?_ ?_
      · simp only [Int.ofNat_eq_natCast]
      · apply List.map_congr_left
        intro i _
        simp only [Function.comp_apply, Int.ofNat_eq_natCast]
        omega
    · rw [h2]
      omega

/-- A stopped clock delivers no ticks at all: the run leaves the clock, the
state and the event trace untouched. -/
theorem AnimationClock.runTicks_stopped (c : AnimationClock) (s : State) (n : Nat)
    (hc : c.running = false) :
    c.runTicks s n = (c, s, []) := by
  induction n generalizing s with
  | zero => rfl
  | succ n ih =>
    unfold AnimationClock.runTicks
    rw [AnimationClock.tick_stopped c s hc]
    dsimp only
    rw [ih s]
    rfl

/-- C6 counterexample: one simulated tick of a freshly started clock forwards
the `animationTick` value `1`, not `0` — the counter is incremented before
the `set` call, so after `n` ticks the forwarded values are `1..n`, never
`0..n-1` as claimed. -/
theorem C6_counterexample :
    ((((AnimationClock.init 60).start).runTicks (State.init 0) 1).2.2
        = [(1 : Value)])
    ∧ ((((AnimationClock.init 60).start).runTicks (State.init 0) 1).2.2
        ≠ [(0 : Value)]) :=
  ⟨rfl, by decide⟩

/-- C6 amended: for a clock attached to a pane's state, ticks are delivered
in strictly increasing counter order with no duplicates and no gaps — after
simulating `n` ticks of a freshly started clock the forwarded `animationTick`
values are exactly `1..n` (the counter starts at 0 and is incremented before
each delivery) — and after `stop()` no further update attributable to that
clock occurs: the tick counter does not advance and nothing is forwarded. -/
theorem C6_tick_order_and_stop (fps n m : Nat) (s t : State) (c : AnimationClock) :
    ((((AnimationClock.init fps).start).runTicks s n).2.2
        = (List.range n).map (fun i => (Int.ofNat (i + 1) : Value)))
    ∧ List.Pairwise (· < ·) ((((AnimationClock.init fps).start).runTicks s n).2.2)
    ∧ (c.stop).runTicks t m = (c.stop, t, []) := by
  obtain ⟨h1, -, -⟩ :=
    AnimationClock.runTicks_values ((AnimationClock.init fps).start) s n rfl
  have hv : ((((AnimationClock.init fps).start).runTicks s n).2.2
      = (List.range n).map (fun i => (Int.ofNat (i + 1) : Value))) := by
    rw [h1]
    apply List.map_congr_left
    intro i _
    congr 1
    show 0 + 1 + i = i + 1
    omega
  refine ⟨hv, ?_, AnimationClock.runTicks_stopped _ _ _ rfl⟩
  rw [hv, List.pairwise_map]
  refine (List.pairwise_lt_range n).imp ?_
  intro a b hab
  exact Int.ofNat_lt.mpr (by omega)

/-- C7: for every pane and widget, `enchain(widget)` is exactly
`widget.attach` on the pane's own state — it registers the widget as a
producer on that state and immediately drives one `set` with the widget's
current value, so the updated map carries that value and (when the callback
accepts the map) exactly one `update` renders its result, before any user
interaction; `attachWidget(widget)` performs `enchain` and additionally
places the widget's visual control in the layout beneath the pane, changing
nothing else.  For `GraphicsPane` the claim is read with a stored callback
present. -/
theorem C7_enchain_attach
    (pi : ImagePane) (pg : GraphicsPane) (pp : Plot2DPane) (c : PyCallback)
    (w : StatefulWidget) (hcb : pg.callback = some c) :
    ((pi.enchain w = ImagePane.widget_attach w pi)
      ∧ (pi.enchain w).1 = { w with attached := w.attached ++ [pi.stateId] }
      ∧ (pi.store.set w.name w.value).get? w.name = some w.value
      ∧ (∀ d, callPy pi.callback (pi.store.set w.name w.value) = .ok d →
          ∃ q, (pi.enchain w).2 = .ok q
            ∧ q.rendered = pi.rendered ++ [d]
            ∧ q.store = pi.store.set w.name w.value
            ∧ q.layout = pi.layout
            ∧ (pi.attach_widget w).1 = (pi.enchain w).1
            ∧ (pi.attach_widget w).2 = .ok { q with layout := q.layout ++ [w.name] }))
    ∧ ((pg.enchain w = GraphicsPane.widget_attach w pg)
      ∧ (pg.enchain w).1 = { w with attached := w.attached ++ [pg.stateId] }
      ∧ (pg.store.set w.name w.value).get? w.name = some w.value
      ∧ (∀ d, callPy c (pg.store.set w.name w.value) = .ok d →
          ∃ q, (pg.enchain w).2 = .ok q
            ∧ q.rendered = pg.rendered ++ [d]
            ∧ q.store = pg.store.set w.name w.value
            ∧ q.layout = pg.layout
            ∧ (pg.attach_widget w).1 = (pg.enchain w).1
            ∧ (pg.attach_widget w).2 = .ok { q with layout := q.layout ++ [w.name] }))
    ∧ ((pp.enchain w = Plot2DPane.widget_attach w pp)
      ∧ (pp.enchain w).1 = { w with attached := w.attached ++ [pp.stateId] }
      ∧ (pp.store.set w.name w.value).get? w.name = some w.value
      ∧ (∀ d, callPy pp.callback (pp.store.set w.name w.value) = .ok d →
          ∃ q, (pp.enchain w).2 = .ok q
            ∧ q.rendered = pp.rendered ++ [d]
            ∧ q.store = pp.store.set w.name w.value
            ∧ q.layout = pp.layout
            ∧ (pp.attach_widget w).1 = (pp.enchain w).1
            ∧ (pp.attach_widget w).2 = .ok { q with layout := q.layout ++ [w.name] })) := by
  refine ⟨⟨rfl, rfl, PMap.get?_set_self _ _ _, fun d hd => ?_⟩,
    ⟨rfl, rfl, PMap.get?_set_self _ _ _, fun d hd => ?_⟩,
    ⟨rfl, rfl, PMap.get?_set_self _ _ _, fun d hd => ?_⟩⟩
  · have he : (pi.enchain w).2
        = .ok (ImagePane.set_image
            { pi with store := pi.store.set w.name w.value } d) :=
      ImagePane.update_eq_image _ _ d hd
    refine ⟨_, he, rfl, rfl, rfl, rfl, ?_⟩
    have ha : (pi.attach_widget w).2
        = ((pi.enchain w).2).map
            (fun r => { r with layout := r.layout ++ [w.name] }) := rfl
    rw [ha, he]
    rfl
  · have he : (pg.enchain w).2
        = .ok (GraphicsPane.set_image
            { pg with store := pg.store.set w.name w.value } d) :=
      GraphicsPane.update_eq_graphics _ c _ d (by exact hcb) hd
    refine ⟨_, he, rfl, rfl, rfl, rfl, ?_⟩
    have ha : (pg.attach_widget w).2
        = ((pg.enchain w).2).map
            (fun r => { r with layout := r.layout ++ [w.name] }) := rfl
    rw [ha, he]
    rfl
  · have he : (pp.enchain w).2
        = .ok (Plot2DPane.set_data
            { pp with store := pp.store.set w.name w.value } d) :=
      Plot2DPane.update_eq_plot _ _ d hd
    refine ⟨_, he, rfl, rfl, rfl, rfl, ?_⟩
    have ha : (pp.attach_widget w).2
        = ((pp.enchain w).2).map
            (fun r => { r with layout := r.layout ++ [w.name] }) := rfl
    rw [ha, he]
    rfl

/-- A concrete widget for witnesses: name `rho`, domain `[0, 10]` at step 1,
current value 3, not yet attached anywhere. -/
def wRho : StatefulWidget := StatefulWidget.mk0 "rho" 0 10 1 3

/-- Witness for C7: attaching the widget `rho = 3` to fresh doubling panes
registers one producer edge and immediately drives exactly one update whose
map carries `rho := 3`, rendering `6`; `attachWidget` additionally places the
widget in the layout. -/
theorem C7_witness :
    ((ImagePane.init 0 5 (some rhoDouble)).enchain wRho).1
      = { wRho with attached :=
            wRho.attached ++ [(ImagePane.init 0 5 (some rhoDouble)).stateId] }
    ∧ (∃ q, ((ImagePane.init 0 5 (some rhoDouble)).enchain wRho).2 = .ok q
        ∧ q.rendered = (ImagePane.init 0 5 (some rhoDouble)).rendered ++ [6]
        ∧ q.store
            = (ImagePane.init 0 5 (some rhoDouble)).store.set wRho.name wRho.value
        ∧ q.layout = (ImagePane.init 0 5 (some rhoDouble)).layout
        ∧ ((ImagePane.init 0 5 (some rhoDouble)).attach_widget wRho).1
            = ((ImagePane.init 0 5 (some rhoDouble)).enchain wRho).1
        ∧ ((ImagePane.init 0 5 (some rhoDouble)).attach_widget wRho).2
            = .ok { q with layout := q.layout ++ [wRho.name] })
    ∧ (∃ q, ((GraphicsPane.init 0 5 (some rhoDouble)).enchain wRho).2 = .ok q
        ∧ q.rendered = (GraphicsPane.init 0 5 (some rhoDouble)).rendered ++ [6]
        ∧ q.store
            = (GraphicsPane.init 0 5 (some rhoDouble)).store.set wRho.name wRho.value
        ∧ q.layout = (GraphicsPane.init 0 5 (some rhoDouble)).layout
        ∧ ((GraphicsPane.init 0 5 (some rhoDouble)).attach_widget wRho).1
            = ((GraphicsPane.init 0 5 (some rhoDouble)).enchain wRho).1
        ∧ ((GraphicsPane.init 0 5 (some rhoDouble)).attach_widget wRho).2
            = .ok { q with layout := q.layout ++ [wRho.name] })
    ∧ (∃ q, ((Plot2DPane.init 0 5 (some rhoDouble)).enchain wRho).2 = .ok q
        ∧ q.rendered = (Plot2DPane.init 0 5 (some rhoDouble)).rendered ++ [6]
        ∧ q.store
            = (Plot2DPane.init 0 5 (some rhoDouble)).store.set wRho.name wRho.value
        ∧ q.layout = (Plot2DPane.init 0 5 (some rhoDouble)).layout
        ∧ ((Plot2DPane.init 0 5 (some rhoDouble)).attach_widget wRho).1
            = ((Plot2DPane.init 0 5 (some rhoDouble)).enchain wRho).1
        ∧ ((Plot2DPane.init 0 5 (some rhoDouble)).attach_widget wRho).2
            = .ok { q with layout := q.layout ++ [wRho.name] }) := by
  have h := C7_enchain_attach (ImagePane.init 0 5 (some rhoDouble))
    (GraphicsPane.init 0 5 (some rhoDouble)) (Plot2DPane.init 0 5 (some rhoDouble))
    rhoDouble wRho rfl
  exact ⟨h.1.2.1, h.1.2.2.2 6 rfl, h.2.1.2.2.2 6 rfl, h.2.2.2.2.2 6 rfl⟩

/-- A successful `ImagePane.update` preserves the identity of the owned
state. -/
theorem ImagePane.update_stateId_image (p : ImagePane) (m : PMap) (q : ImagePane)
    (h : p.update m = .ok q) : q.stateId = p.stateId := by
  unfold ImagePane.update at h
  cases hc : callPy p.callback m with
  | error e => rw [hc] at h; simp at h
  | ok d =>
    rw [hc] at h
    injection h with h
    rw [← h]
    rfl

/-- A successful `GraphicsPane.update` preserves the identity of the owned
state. -/
theorem GraphicsPane.update_stateId_graphics (p : GraphicsPane) (m : PMap)
    (q : GraphicsPane) (h : p.update m = .ok q) : q.stateId = p.stateId := by
  cases hcb : p.callback with
  | none => rw [GraphicsPane.update_none p m hcb] at h; simp at h
  | some c =>
    rw [GraphicsPane.update_some p c m hcb] at h
    cases hc : callPy c m with
    | error e => rw [hc] at h; simp at h
    | ok d =>
      rw [hc] at h
      injection h with h
      rw [← h]
      rfl

/-- A successful `Plot2DPane.update` preserves the identity of the owned
state. -/
theorem Plot2DPane.update_stateId_plot (p : Plot2DPane) (m : PMap) (q : Plot2DPane)
    (h : p.update m = .ok q) : q.stateId = p.stateId := by
  unfold Plot2DPane.update at h
  cases hc : callPy p.callback m with
  | error e => rw [hc] at h; simp at h
  | ok d =>
    rw [hc] at h
    injection h with h
    rw [← h]
    rfl

/-- A `set` on an `ImagePane`'s own state preserves the state's identity. -/
theorem ImagePane.state_set_stateId_image (p : ImagePane) (k : PName) (v : Value)
    (q : ImagePane) (h : p.state_set k v = .ok q) : q.stateId = p.stateId := by
  obtain ⟨d, hc, rfl⟩ := ImagePane.state_set_ok_image p k v q h
  rfl

/-- A `set` on a `GraphicsPane`'s own state preserves the state's identity. -/
theorem GraphicsPane.state_set_stateId_graphics (p : GraphicsPane) (k : PName) (v : Value)
    (q : GraphicsPane) (h : p.state_set k v = .ok q) : q.stateId = p.stateId := by
  obtain ⟨c, d, hcb, hc, rfl⟩ := GraphicsPane.state_set_ok_graphics p k v q h
  rfl

/-- A `set` on a `Plot2DPane`'s own state preserves the state's identity. -/
theorem Plot2DPane.state_set_stateId_plot (p : Plot2DPane) (k : PName) (v : Value)
    (q : Plot2DPane) (h : p.state_set k v = .ok q) : q.stateId = p.stateId := by
  obtain ⟨d, hc, rfl⟩ := Plot2DPane.state_set_ok_plot p k v q h
  rfl

/-- `attach_widget` preserves the identity of an `ImagePane`'s owned state. -/
theorem ImagePane.attach_widget_stateId_image (p : ImagePane) (w : StatefulWidget)
    (q : ImagePane) (h : (p.attach_widget w).2 = .ok q) : q.stateId = p.stateId := by
  have h' : ((p.enchain w).2).map
      (fun r => { r with layout := r.layout ++ [w.name] }) = .ok q := h
  cases he : (p.enchain w).2 with
  | error e => rw [he] at h'; simp [Except.map] at h'
  | ok r =>
    rw [he] at h'
    simp only [Except.map, Except.ok.injEq] at h'
    rw [← h']
    exact ImagePane.state_set_stateId_image p w.name w.value r he

/-- `attach_widget` preserves the identity of a `GraphicsPane`'s owned
state. -/
theorem GraphicsPane.attach_widget_stateId_graphics (p : GraphicsPane) (w : StatefulWidget)
    (q : GraphicsPane) (h : (p.attach_widget w).2 = .ok q) : q.stateId = p.stateId := by
  have h' : ((p.enchain w).2).map
      (fun r => { r with layout := r.layout ++ [w.name] }) = .ok q := h
  cases he : (p.enchain w).2 with
  | error e => rw [he] at h'; simp [Except.map] at h'
  | ok r =>
    rw [he] at h'
    simp only [Except.map, Except.ok.injEq] at h'
    rw [← h']
    exact GraphicsPane.state_set_stateId_graphics p w.name w.value r he

/-- `attach_widget` preserves the identity of a `Plot2DPane`'s owned state. -/
theorem Plot2DPane.attach_widget_stateId_plot (p : Plot2DPane) (w : StatefulWidget)
    (q : Plot2DPane) (h : (p.attach_widget w).2 = .ok q) : q.stateId = p.stateId := by
  have h' : ((p.enchain w).2).map
      (fun r => { r with layout := r.layout ++ [w.name] }) = .ok q := h
  cases he : (p.enchain w).2 with
  | error e => rw [he] at h'; simp [Except.map] at h'
  | ok r =>
    rw [he] at h'
    simp only [Except.map, Except.ok.injEq] at h'
    rw [← h']
    exact Plot2DPane.state_set_stateId_plot p w.name w.value r he

/-- C8: every pane owns exactly one state, created with the pane at
construction (the constructor assigns the freshly created state's identity),
private to it (panes built from distinct fresh states own distinct states),
and every pane operation — `update`, the state's `set`, `forceFlush`,
`enchain`, `attachWidget` — preserves this ownership: the resulting pane
still owns the same state instance. -/
theorem C8_state_ownership
    (fresh f1 f2 : Nat) (img : Data) (cal : Option PyCallback)
    (pi : ImagePane) (pg : GraphicsPane) (pp : Plot2DPane)
    (m : PMap) (k : PName) (v : Value) (w : StatefulWidget) :
    ((StatefulPane.init fresh).stateId = fresh
      ∧ (ImagePane.init fresh img cal).stateId = fresh
      ∧ (GraphicsPane.init fresh img cal).stateId = fresh
      ∧ (Plot2DPane.init fresh img cal).stateId = fresh
      ∧ (f1 ≠ f2 →
          (ImagePane.init f1 img cal).stateId ≠ (Plot2DPane.init f2 img cal).stateId))
    ∧ ((∀ q, pi.update m = .ok q → q.stateId = pi.stateId)
      ∧ (∀ q, pi.state_set k v = .ok q → q.stateId = pi.stateId)
      ∧ (∀ q, pi.force_flush = .ok q → q.stateId = pi.stateId)
      ∧ (∀ q, (pi.enchain w).2 = .ok q → q.stateId = pi.stateId)
      ∧ (∀ q, (pi.attach_widget w).2 = .ok q → q.stateId = pi.stateId))
    ∧ ((∀ q, pg.update m = .ok q → q.stateId = pg.stateId)
      ∧ (∀ q, pg.state_set k v = .ok q → q.stateId = pg.stateId)
      ∧ (∀ q, pg.force_flush = .ok q → q.stateId = pg.stateId)
      ∧ (∀ q, (pg.enchain w).2 = .ok q → q.stateId = pg.stateId)
      ∧ (∀ q, (pg.attach_widget w).2 = .ok q → q.stateId = pg.stateId))
    ∧ ((∀ q, pp.update m = .ok q → q.stateId = pp.stateId)
      ∧ (∀ q, pp.state_set k v = .ok q → q.stateId = pp.stateId)
      ∧ (∀ q, pp.force_flush = .ok q → q.stateId = pp.stateId)
      ∧ (∀ q, (pp.enchain w).2 = .ok q → q.stateId = pp.stateId)
      ∧ (∀ q, (pp.attach_widget w).2 = .ok q → q.stateId = pp.stateId)) := by
  refine ⟨⟨rfl, rfl, rfl, rfl, fun hne h => absurd h hne⟩,
    ⟨fun q => ImagePane.update_stateId_image pi m q,
     fun q => ImagePane.state_set_stateId_image pi k v q,
     fun q h => ImagePane.update_stateId_image pi pi.store q h,
     fun q h => ImagePane.state_set_stateId_image pi w.name w.value q h,
     fun q => ImagePane.attach_widget_stateId_image pi w q⟩,
    ⟨fun q => GraphicsPane.update_stateId_graphics pg m q,
     fun q => GraphicsPane.state_set_stateId_graphics pg k v q,
     fun q h => GraphicsPane.update_stateId_graphics pg pg.store q h,
     fun q h => GraphicsPane.state_set_stateId_graphics pg w.name w.value q h,
     fun q => GraphicsPane.attach_widget_stateId_graphics pg w q⟩,
    ⟨fun q => Plot2DPane.update_stateId_plot pp m q,
     fun q => Plot2DPane.state_set_stateId_plot pp k v q,
     fun q h => Plot2DPane.update_stateId_plot pp pp.store q h,
     fun q h => Plot2DPane.state_set_stateId_plot pp w.name w.value q h,
     fun q => Plot2DPane.attach_widget_stateId_plot pp w q⟩⟩
